import Mathlib

/-!
Shallow embedding of the `parser-json-rs` repository (a two-stage JSON
parser written in Rust: `src/tokenize.rs` and `src/parser.rs`), together
with theorems settling the frozen claims about its specification.

Modelling conventions:
* Rust `f64` numbers are modelled as exact rationals (`ℚ`): the parsed
  numeral strings contain only ASCII digits and at most one `.`, and no
  claim depends on floating-point rounding.
* Rust panics (out-of-bounds indexing, `todo!()`) are explicit outcomes
  of the result types (`PanicKind.indexOutOfBounds`,
  `PanicKind.notImplemented`).
* Loops whose cursor only moves forward are written with a structural
  fuel parameter so that every definition is executable by `decide`;
  top-level entry points supply fuel strictly larger than the number of
  iterations any run can make (each iteration advances the cursor by at
  least one position).  Fuel exhaustion is the model-only outcome
  `PanicKind.outOfFuel`, which no theorem below ever exhibits.
-/

namespace JsonRs

/-- Panic outcomes.  `indexOutOfBounds` models a Rust slice-index panic,
`notImplemented` models `todo!()`, and `outOfFuel` is the model-only
artifact of the fuel encoding (never reached with the supplied fuel). -/
inductive PanicKind where
  | indexOutOfBounds
  | notImplemented
  | outOfFuel
deriving DecidableEq, Repr

/-- `enum Token` from `src/tokenize.rs`. -/
inductive Token where
  | leftCurlyBracket
  | rightCurlyBracket
  | leftSquareBracket
  | rightSquareBracket
  | comma
  | colon
  | null
  | false
  | true
  | number (q : ℚ)
  | string (s : String)
deriving DecidableEq, Repr

/-- `enum TokenizeError` from `src/tokenize.rs` (the `ParseFloatError`
payload of `ParseNumberError` is dropped: only the variant matters). -/
inductive TokenizeError where
  | unrecognizedToken
  | unfinishedLiteralValue
  | parseNumberError
  | unclosedQuotes
  | unexpectedEof
  | charNotRecognized (c : Char)
deriving DecidableEq, Repr

/-- Result of a tokenizer step: success, lexical error, or panic. -/
inductive TResult (α : Type) where
  | ok (a : α)
  | err (e : TokenizeError)
  | panic (p : PanicKind)
deriving DecidableEq, Repr

/-- Rust `char::is_ascii_whitespace`: space, tab, newline, form feed,
carriage return. -/
def isAsciiWhitespace (c : Char) : Bool :=
  c = ' ' ∨ c = '\t' ∨ c = '\n' ∨ c = Char.ofNat 12 ∨ c = Char.ofNat 13

/-- The whitespace-skipping loop at the top of `make_token`
(`src/tokenize.rs` lines 61-68).  The initial read `chars[*index]`
panics when out of bounds; inside the loop the bound is checked before
the read and exhaustion is `UnexpectedEof`.  Returns the cursor and the
first non-whitespace character.  Fuel bounds the iterations (the cursor
advances each time). -/
def skipWhitespace (fuel : Nat) (chars : List Char) (index : Nat) :
    TResult (Nat × Char) :=
  match fuel with
  | 0 => .panic .outOfFuel
  | fuel + 1 =>
    match chars[index]? with
    | none => .panic .indexOutOfBounds
    | some ch =>
      if isAsciiWhitespace ch then
        if chars.length ≤ index + 1 then .err .unexpectedEof
        else skipWhitespace fuel chars (index + 1)
      else .ok (index, ch)

/-- Leftmost occurrence of one of the keywords `null`, `false`, `true`
in the input, returning the matched keyword's length.  This models
`Regex::new(r"(?<name>null|false|true)").captures(input)` in
`tokenize_literal` (`src/tokenize.rs` lines 91-94): the regex engine
scans the WHOLE input left to right for the leftmost match, it is not
anchored at the cursor. -/
def findKeyword : List Char → Option Nat
  | [] => none
  | c :: rest =>
    if ("null".toList).isPrefixOf (c :: rest) then some 4
    else if ("false".toList).isPrefixOf (c :: rest) then some 5
    else if ("true".toList).isPrefixOf (c :: rest) then some 4
    else findKeyword rest

/-- `tokenize_literal` (`src/tokenize.rs` lines 90-98): searches the
whole original input for a keyword with a regex; on a match returns the
`token` argument unchanged (whatever keyword actually matched) and
advances the cursor by the matched length minus one; with no match
anywhere it fails with `UnfinishedLiteralValue`. -/
def tokenize_literal (index : Nat) (token : Token) (input : List Char) :
    TResult (Token × Nat) :=
  match findKeyword input with
  | none => .err .unfinishedLiteralValue
  | some len => .ok (token, index + len - 1)

/-- The character-collecting loop of `tokenize_float`
(`src/tokenize.rs` lines 105-117): consume ASCII digits, at most one
`.` (a second `.` stops the scan), and `-` anywhere (sets the negation
flag without being copied); any other character stops the scan.
Returns (collected characters, negation flag, final cursor). -/
def floatLoop (fuel : Nat) (chars : List Char) (index : Nat)
    (acc : List Char) (hasDecimal isNegative : Bool) :
    Option (List Char × Bool × Nat) :=
  match fuel with
  | 0 => none
  | fuel + 1 =>
    match chars[index]? with
    | none => some (acc, isNegative, index)
    | some ch =>
      if ch.isDigit then
        floatLoop fuel chars (index + 1) (acc ++ [ch]) hasDecimal isNegative
      else if ch = '.' ∧ hasDecimal = Bool.false then
        floatLoop fuel chars (index + 1) (acc ++ ['.']) Bool.true isNegative
      else if ch = '-' then
        floatLoop fuel chars (index + 1) acc hasDecimal Bool.true
      else some (acc, isNegative, index)

/-- Numeric value of a list of ASCII digits, most significant first. -/
def digitsToNat (cs : List Char) : Nat :=
  cs.foldl (fun acc c => 10 * acc + (c.toNat - 48)) 0

/-- Rust `str::parse::<f64>` restricted to the strings `tokenize_float`
collects (ASCII digits with at most one `.`): parsing succeeds exactly
when at least one digit is present, and the value is modelled as the
exact decimal rational (f64 rounding abstracted away). -/
def parseNum (cs : List Char) : Option ℚ :=
  if cs.any (fun c => c.isDigit) then
    let intPart := cs.takeWhile (fun c => c ≠ '.')
    let fracPart := (cs.dropWhile (fun c => c ≠ '.')).drop 1
    some ((digitsToNat intPart : ℚ) +
      (digitsToNat fracPart : ℚ) / (10 : ℚ) ^ fracPart.length)
  else none

/-- `tokenize_float` (`src/tokenize.rs` lines 100-129).  On success the
returned cursor is the position of the first character NOT consumed by
the numeric scan (the Rust loop leaves `*index` there). -/
def tokenize_float (chars : List Char) (index : Nat) :
    TResult (Token × Nat) :=
  match floatLoop (chars.length + 1) chars index [] Bool.false Bool.false with
  | none => .panic .outOfFuel
  | some (acc, isNegative, newIndex) =>
    match parseNum acc with
    | none => .err .parseNumberError
    | some q =>
      if isNegative then .ok (.number (-1 * q), newIndex)
      else .ok (.number q, newIndex)

/-- The string-collecting loop of `tokenize_string`
(`src/tokenize.rs` lines 135-149): first advance the cursor, fail with
`UnclosedQuotes` at end of input, then read the character; an unescaped
`"` stops the scan without being copied, `\` toggles the escaping flag
and is copied, anything else resets the flag and is copied.  Returns
the raw (still-escaped) characters and the cursor left on the closing
quote. -/
def stringLoop (fuel : Nat) (chars : List Char) (index : Nat)
    (acc : List Char) (isEscaping : Bool) : TResult (List Char × Nat) :=
  match fuel with
  | 0 => .panic .outOfFuel
  | fuel + 1 =>
    if h : index + 1 < chars.length then
      let ch := chars[index + 1]
      if ch = '"' ∧ isEscaping = Bool.false then .ok (acc, index + 1)
      else if ch = '\\' then
        stringLoop fuel chars (index + 1) (acc ++ [ch]) (!isEscaping)
      else
        stringLoop fuel chars (index + 1) (acc ++ [ch]) Bool.false
    else .err .unclosedQuotes

/-- `tokenize_string` (`src/tokenize.rs` lines 131-152). -/
def tokenize_string (chars : List Char) (index : Nat) :
    TResult (Token × Nat) :=
  match stringLoop (chars.length + 1) chars index [] Bool.false with
  | .ok (cs, newIndex) => .ok (.string (String.mk cs), newIndex)
  | .err e => .err e
  | .panic p => .panic p

/-- `make_token` (`src/tokenize.rs` lines 60-88): skip whitespace, then
dispatch on the current character.  In the numeric guard
`ch.is_ascii_digit() | (ch == '-' && chars[*index + 1].is_ascii_digit())`
the lookahead `chars[*index + 1]` panics when `-` is the final
character. -/
def make_token (chars : List Char) (index : Nat) (input : List Char) :
    TResult (Token × Nat) :=
  match skipWhitespace (chars.length + 1) chars index with
  | .err e => .err e
  | .panic p => .panic p
  | .ok (i, ch) =>
    if ch = '{' then .ok (.leftCurlyBracket, i)
    else if ch = '}' then .ok (.rightCurlyBracket, i)
    else if ch = '[' then .ok (.leftSquareBracket, i)
    else if ch = ']' then .ok (.rightSquareBracket, i)
    else if ch = ':' then .ok (.colon, i)
    else if ch = ',' then .ok (.comma, i)
    else if ch = 'n' then tokenize_literal i Token.null input
    else if ch = 't' then tokenize_literal i Token.true input
    else if ch = 'f' then tokenize_literal i Token.false input
    else if ch.isDigit then tokenize_float chars i
    else if ch = '-' then
      match chars[i + 1]? with
      | none => .panic .indexOutOfBounds
      | some next =>
        if next.isDigit then tokenize_float chars i
        else .err (.charNotRecognized ch)
    else if ch = '"' then tokenize_string chars i
    else .err (.charNotRecognized ch)

/-- The `while index < chars.len()` loop of `tokenize`
(`src/tokenize.rs` lines 51-55): produce a token, append it, and resume
one position past the cursor `make_token` left. -/
def tokenizeLoop (fuel : Nat) (chars input : List Char) (index : Nat)
    (acc : List Token) : TResult (List Token) :=
  match fuel with
  | 0 => .panic .outOfFuel
  | fuel + 1 =>
    if index < chars.length then
      match make_token chars index input with
      | .err e => .err e
      | .panic p => .panic p
      | .ok (token, newIndex) =>
        tokenizeLoop fuel chars input (newIndex + 1) (acc ++ [token])
    else .ok acc

/-- `tokenize` (`src/tokenize.rs` lines 46-58).  The whole input is kept
alongside the character vector because `tokenize_literal` runs its regex
over the whole original input. -/
def tokenize (input : String) : TResult (List Token) :=
  tokenizeLoop (input.toList.length + 1) input.toList input.toList 0 []

/-! ## The parser (`src/parser.rs`) -/

/-- `enum Value` from `src/lib.rs`.  The `HashMap<String, Value>` of the
`Object` variant is modelled as an association list into which
`insertHM` writes with the overwrite semantics of `HashMap::insert`. -/
inductive Value where
  | null
  | boolean (b : Bool)
  | string (s : String)
  | number (q : ℚ)
  | array (vs : List Value)
  | object (m : List (String × Value))

/-- `enum TokenParseError` from `src/parser.rs`. -/
inductive TokenParseError where
  | unfinishedEscape
  | invalidHexValue
  | invalidCodePointValue
  | expectedComma
  | expectedProperty
  | expectedColon
deriving DecidableEq, Repr

/-- Result of a parser step: success, syntax error, or panic. -/
inductive PResult (α : Type) where
  | ok (a : α)
  | err (e : TokenParseError)
  | panic (p : PanicKind)

/-- `HashMap::insert`: bind `k` to `v`, overwriting any earlier binding
of `k`. -/
def insertHM (m : List (String × Value)) (k : String) (v : Value) :
    List (String × Value) :=
  match m with
  | [] => [(k, v)]
  | (k', v') :: rest =>
    if k' = k then (k, v) :: rest else (k', v') :: insertHM rest k v

/-- `HashMap::get`: the value bound to `k`, if any. -/
def lookupHM (m : List (String × Value)) (k : String) : Option Value :=
  match m with
  | [] => none
  | (k', v') :: rest => if k' = k then some v' else lookupHM rest k

/-- Rust `char::to_digit(16)`: hex digit value of `0-9`, `a-f`, `A-F`. -/
def hexDigitValue (c : Char) : Option Nat :=
  if '0' ≤ c ∧ c ≤ '9' then some (c.toNat - 48)
  else if 'a' ≤ c ∧ c ≤ 'f' then some (c.toNat - 87)
  else if 'A' ≤ c ∧ c ≤ 'F' then some (c.toNat - 55)
  else none

/-- Rust `char::from_u32`: succeeds exactly on Unicode scalar values
(rejecting the surrogate range `0xD800..=0xDFFF` and values above
`0x10FFFF`). -/
def charFromU32 (n : Nat) : Option Char :=
  if n.isValidChar then some (Char.ofNat n) else none

/-- One step of the `for i in 0..4` loop in `parse_string`'s `\u` arm
(`src/parser.rs` lines 45-51): take the next character
(`UnfinishedEscape` when the iterator is exhausted) and read it as a
hex digit (`InvalidHexValue` otherwise). -/
def readHexDigit (cs : List Char) :
    Except TokenParseError (Nat × List Char) :=
  match cs with
  | [] => .error .unfinishedEscape
  | c :: rest =>
    match hexDigitValue c with
    | none => .error .invalidHexValue
    | some d => .ok (d, rest)

/-- The `\u` escape handler of `parse_string` (`src/parser.rs` lines
43-55): read four hex digits, accumulate
`sum += 16^(3-i) * digit`, and convert with `char::from_u32`
(`InvalidCodePointValue` on failure).  Returns the decoded character
and the characters remaining after the four digits. -/
def escapeU (cs : List Char) : Except TokenParseError (Char × List Char) :=
  match readHexDigit cs with
  | .error e => .error e
  | .ok (d0, cs0) =>
    match readHexDigit cs0 with
    | .error e => .error e
    | .ok (d1, cs1) =>
      match readHexDigit cs1 with
      | .error e => .error e
      | .ok (d2, cs2) =>
        match readHexDigit cs2 with
        | .error e => .error e
        | .ok (d3, cs3) =>
          match charFromU32 (16 ^ 3 * d0 + 16 ^ 2 * d1 + 16 * d2 + d3) with
          | none => .error .invalidCodePointValue
          | some c => .ok (c, cs3)

/-- The `while let Some(next_char) = chars.next()` loop of
`parse_string` (`src/parser.rs` lines 33-65).  When the escaping flag
is set the match arms are the literal characters `"`, `\`, `b`, `f`
(pushing U+0012, not form feed U+000C), the CONTROL CHARACTERS newline,
carriage return and tab (not the letters `n`, `r`, `t`), `u`, and a
catch-all pushing the character unchanged; afterwards the code sets
`is_escaping = true` (it never resets it to false).  When the flag is
clear, `\` sets it and any other character is copied. -/
def psLoop (fuel : Nat) (cs : List Char) (acc : List Char)
    (isEscaping : Bool) : PResult (List Char) :=
  match fuel with
  | 0 => .panic .outOfFuel
  | fuel + 1 =>
    match cs with
    | [] => .ok acc
    | c :: rest =>
      if isEscaping then
        if c = '"' then psLoop fuel rest (acc ++ ['"']) Bool.true
        else if c = '\\' then psLoop fuel rest (acc ++ ['\\']) Bool.true
        else if c = 'b' then
          psLoop fuel rest (acc ++ [Char.ofNat 8]) Bool.true
        else if c = 'f' then
          psLoop fuel rest (acc ++ [Char.ofNat 18]) Bool.true
        else if c = '\n' then psLoop fuel rest (acc ++ ['\n']) Bool.true
        else if c = Char.ofNat 13 then
          psLoop fuel rest (acc ++ [Char.ofNat 13]) Bool.true
        else if c = '\t' then psLoop fuel rest (acc ++ ['\t']) Bool.true
        else if c = 'u' then
          match escapeU rest with
          | .error e => .err e
          | .ok (uc, rest') => psLoop fuel rest' (acc ++ [uc]) Bool.true
        else psLoop fuel rest (acc ++ [c]) Bool.true
      else if c = '\\' then psLoop fuel rest acc Bool.true
      else psLoop fuel rest (acc ++ [c]) Bool.false

/-- `parse_string` (`src/parser.rs` lines 28-68): unescape the raw token
text into a `Value.String`.  Each loop iteration consumes at least one
character, so `length + 1` fuel never runs out. -/
def parse_string (s : String) : PResult Value :=
  match psLoop (s.toList.length + 1) s.toList [] Bool.false with
  | .err e => .err e
  | .panic p => .panic p
  | .ok cs => .ok (.string (String.mk cs))

mutual

/-- `parse_tokens` (`src/parser.rs` lines 8-26): read the token at the
cursor (`tokens[*index]` panics when the cursor is past the end),
advance past it when it is a scalar, and dispatch.  `Comma`, `Colon`,
`RightCurlyBracket` and `RightSquareBracket` fall to `todo!()`, a
panic.  Fuel decreases at every nested call. -/
def parse_tokens (fuel : Nat) (tokens : List Token) (index : Nat) :
    PResult (Value × Nat) :=
  match fuel with
  | 0 => .panic .outOfFuel
  | fuel + 1 =>
    match tokens[index]? with
    | none => .panic .indexOutOfBounds
    | some t =>
      match t with
      | .null => .ok (.null, index + 1)
      | .false => .ok (.boolean Bool.false, index + 1)
      | .true => .ok (.boolean Bool.true, index + 1)
      | .number q => .ok (.number q, index + 1)
      | .string s =>
        match parse_string s with
        | .ok v => .ok (v, index + 1)
        | .err e => .err e
        | .panic p => .panic p
      | .leftCurlyBracket => parse_object fuel tokens index []
      | .leftSquareBracket => parse_array fuel tokens index []
      | _ => .panic .notImplemented

/-- `parse_array` (`src/parser.rs` lines 70-91), with the Rust local
`arr` as the accumulator parameter.  Each loop pass advances past the
previous `[` or `,` (`tokens[*index]` panics past the end), stops on
`]`, otherwise parses one value, appends it, and then requires `,`
(continue) or `]` (stop), failing with `ExpectedComma` otherwise.
After the loop the cursor advances past the `]`. -/
def parse_array (fuel : Nat) (tokens : List Token) (index : Nat)
    (arr : List Value) : PResult (Value × Nat) :=
  match fuel with
  | 0 => .panic .outOfFuel
  | fuel + 1 =>
    match tokens[index + 1]? with
    | none => .panic .indexOutOfBounds
    | some t =>
      if t = .rightSquareBracket then .ok (.array arr, index + 2)
      else
        match parse_tokens fuel tokens (index + 1) with
        | .err e => .err e
        | .panic p => .panic p
        | .ok (v, i) =>
          match tokens[i]? with
          | none => .panic .indexOutOfBounds
          | some t2 =>
            match t2 with
            | .comma => parse_array fuel tokens i (arr ++ [v])
            | .rightSquareBracket => .ok (.array (arr ++ [v]), i + 1)
            | _ => .err .expectedComma

/-- `parse_object` (`src/parser.rs` lines 93-124), with the Rust local
`map` as the accumulator parameter.  Each loop pass advances past the
previous `{` or `,` (`tokens[*index]` panics past the end), stops on
`}`, otherwise requires a `String` key (`ExpectedProperty`), a `:`
(`ExpectedColon`), parses the value, and inserts the RAW key (the
`String` token's text, `s.clone()`, not unescaped) with
`HashMap::insert`, overwriting any earlier binding; then requires `,`
(continue) or `}` (stop), failing with `ExpectedComma` otherwise.
After the loop the cursor advances past the `}`. -/
def parse_object (fuel : Nat) (tokens : List Token) (index : Nat)
    (map : List (String × Value)) : PResult (Value × Nat) :=
  match fuel with
  | 0 => .panic .outOfFuel
  | fuel + 1 =>
    match tokens[index + 1]? with
    | none => .panic .indexOutOfBounds
    | some t =>
      if t = .rightCurlyBracket then .ok (.object map, index + 2)
      else
        match t with
        | .string s =>
          match tokens[index + 2]? with
          | none => .panic .indexOutOfBounds
          | some t2 =>
            if t2 = .colon then
              match parse_tokens fuel tokens (index + 3) with
              | .err e => .err e
              | .panic p => .panic p
              | .ok (v, i) =>
                match tokens[i]? with
                | none => .panic .indexOutOfBounds
                | some t3 =>
                  match t3 with
                  | .comma => parse_object fuel tokens i (insertHM map s v)
                  | .rightCurlyBracket =>
                    .ok (.object (insertHM map s v), i + 1)
                  | _ => .err .expectedComma
            else .err .expectedColon
        | _ => .err .expectedProperty

end

/-- The external entry point of stage 2 (`parse_tokens(&tokens, &mut 0)`
as the tests call it).  Fuel `2 * length + 2` is strictly larger than
the number of nested calls any run can make: every call after the first
is preceded by a fresh cursor advance and the cursor never exceeds the
token count plus one. -/
def parse (tokens : List Token) : PResult Value :=
  match parse_tokens (2 * tokens.length + 2) tokens 0 with
  | .ok (v, _) => .ok v
  | .err e => .err e
  | .panic p => .panic p

/-! ## Claims -/

/-- Claim C1: the claim says that on a truncated token sequence the
parser returns a syntax error deterministically and never panics.  The
code violates this: on the tokens of `{"a": "A"` (closing brace
missing) `parse_object` reads `tokens[*index]` past the end of the
slice after the value, which is an index-out-of-bounds panic, not an
error value. -/
theorem claim1_truncated_object_panics :
    parse [Token.leftCurlyBracket, Token.string "a", Token.colon,
      Token.string "A"] = .panic .indexOutOfBounds := by
  rfl

/-- Claim C2: the claim says that a token that cannot begin a value
(`Comma`, `Colon`, `RightCurlyBracket`, `RightSquareBracket`) at the
cursor makes parsing return a syntax error rather than succeed or
panic.  The code violates this: those four tokens reach the `todo!()`
arm of `parse_tokens`, a panic, at every cursor position and every
fuel. -/
theorem claim2_nonvalue_token_panics (fuel : Nat) (tokens : List Token)
    (index : Nat)
    (h : tokens[index]? = some Token.comma ∨
      tokens[index]? = some Token.colon ∨
      tokens[index]? = some Token.rightCurlyBracket ∨
      tokens[index]? = some Token.rightSquareBracket) :
    parse_tokens (fuel + 1) tokens index = .panic .notImplemented := by
  rcases h with h | h | h | h <;> simp [parse_tokens, h]

/-- Witness for C2 at the concrete input `[Comma]`, cursor 0. -/
theorem claim2_nonvalue_token_panics_witness :
    parse_tokens 1 [Token.comma] 0 = .panic .notImplemented :=
  claim2_nonvalue_token_panics 0 [Token.comma] 0 (Or.inl rfl)

/-- Claim C3: the claim says keyword matching is anchored at the
cursor, so that an occurrence of a keyword elsewhere in the input must
not make the match succeed, and a non-keyword at the cursor fails with
`UnfinishedLiteralValue`.  The code violates this: `tokenize_literal`
runs its regex over the whole input, so on `"nol true"` the `n` at the
cursor is tokenized as `Null` (because `true` occurs later in the
input) instead of failing. -/
theorem claim3_keyword_matched_away_from_cursor :
    tokenize "nol true" = .ok [Token.null, Token.true] := by
  rfl

/-- Claim C4: the claim says tokenization emits the tokens of all
lexical units in order with none skipped, e.g. `1,2` gives Number,
Comma, Number and `[1]` gives `[`, Number, `]`.  The code violates
this: after `tokenize_float` has already left the cursor on the first
non-numeric character, the main loop's unconditional `index += 1`
skips that character, dropping the `,` of `1,2` and the `]` of
`[1]`. -/
theorem claim4_char_after_number_skipped :
    tokenize "1,2" = .ok [Token.number 1, Token.number 2]
    ∧ tokenize "[1]" = .ok [Token.leftSquareBracket, Token.number 1] := by
  constructor
  · have h : tokenize "1,2"
        = .ok [Token.number ((1 : ℕ) + (0 : ℕ) / 10 ^ (0 : ℕ)),
          Token.number ((2 : ℕ) + (0 : ℕ) / 10 ^ (0 : ℕ))] := rfl
    rw [h]
    norm_num
  · have h : tokenize "[1]"
        = .ok [Token.leftSquareBracket,
          Token.number ((1 : ℕ) + (0 : ℕ) / 10 ^ (0 : ℕ))] := rfl
    rw [h]
    norm_num

/-- Claim C5: the claim says reaching end-of-input while skipping
whitespace simply ends tokenization.  The code violates this: after
the last token of `"true "` the whitespace-skipping loop in
`make_token` hits the end of input and returns the error
`UnexpectedEof`, so the whole call fails. -/
theorem claim5_trailing_whitespace_errors :
    tokenize "true " = .err .unexpectedEof := by
  rfl

/-- Claim C6: the claim says unescaping decides each escape by the
LETTER after the backslash: `\` + `n` gives a newline and `\` + `f`
gives form feed U+000C.  The code violates this: its `'\n'`/`'\r'`/
`'\t'` arms match literal control bytes, so backslash + letter `n`
falls to the catch-all and yields the letter `n`, and the `'f'` arm
pushes U+0012, which is not form feed U+000C. -/
theorem claim6_escape_by_letter_fails :
    parse_string (String.mk ['\\', 'n']) = .ok (.string "n")
    ∧ parse_string (String.mk ['\\', 'f'])
      = .ok (.string (String.mk [Char.ofNat 18])) := by
  constructor <;> rfl

/-- Claim C7: the claim says the escaping state applies only to the
single character after a backslash, so in raw `\nbc` the characters
`b` and `c` are copied as-is.  The code violates this: after handling
an escaped character it sets `is_escaping = true` instead of false, so
the `b` of `\nbc` is treated as the `\b` escape and becomes backspace
U+0008. -/
theorem claim7_escaping_flag_never_resets :
    parse_string (String.mk ['\\', 'n', 'b', 'c'])
      = .ok (.string (String.mk ['n', Char.ofNat 8, 'c'])) := by
  rfl

/-- Claim C8: `\u` followed by four hex digits produces the character
whose code point the digits form (`A` parses to `"A"`); running
out of characters on an all-hex prefix fails with `UnfinishedEscape`;
a non-hex character among the four (all earlier ones hex) fails with
`InvalidHexValue`; a value that is not a Unicode scalar (a surrogate)
fails with `InvalidCodePointValue`. -/
theorem claim8_unicode_escape :
    parse_string (String.mk ['\\', 'u', '0', '0', '4', '1'])
      = .ok (.string "A")
    ∧ (∀ cs : List Char, cs.length < 4 →
        (∀ c ∈ cs, hexDigitValue c ≠ none) →
        escapeU cs = .error .unfinishedEscape)
    ∧ (∀ c0 c1 c2 c3 : Char, ∀ rest : List Char, ∀ d0 d1 d2 d3 : Nat,
        hexDigitValue c0 = some d0 → hexDigitValue c1 = some d1 →
        hexDigitValue c2 = some d2 → hexDigitValue c3 = some d3 →
        escapeU (c0 :: c1 :: c2 :: c3 :: rest) =
          match charFromU32 (16 ^ 3 * d0 + 16 ^ 2 * d1 + 16 * d2 + d3) with
          | none => .error .invalidCodePointValue
          | some ch => .ok (ch, rest))
    ∧ (∀ c0 : Char, ∀ rest : List Char, hexDigitValue c0 = none →
        escapeU (c0 :: rest) = .error .invalidHexValue)
    ∧ (∀ c0 c1 : Char, ∀ rest : List Char, ∀ d0 : Nat,
        hexDigitValue c0 = some d0 → hexDigitValue c1 = none →
        escapeU (c0 :: c1 :: rest) = .error .invalidHexValue)
    ∧ (∀ c0 c1 c2 : Char, ∀ rest : List Char, ∀ d0 d1 : Nat,
        hexDigitValue c0 = some d0 → hexDigitValue c1 = some d1 →
        hexDigitValue c2 = none →
        escapeU (c0 :: c1 :: c2 :: rest) = .error .invalidHexValue)
    ∧ (∀ c0 c1 c2 c3 : Char, ∀ rest : List Char, ∀ d0 d1 d2 : Nat,
        hexDigitValue c0 = some d0 → hexDigitValue c1 = some d1 →
        hexDigitValue c2 = some d2 → hexDigitValue c3 = none →
        escapeU (c0 :: c1 :: c2 :: c3 :: rest)
          = .error .invalidHexValue) := by
  refine ⟨by rfl, ?_, ?_, ?_, ?_, ?_, ?_⟩
  · intro cs hlen hhex
    rcases cs with _ | ⟨c0, _ | ⟨c1, _ | ⟨c2, _ | ⟨c3, rest⟩⟩⟩⟩
    · rfl
    · obtain ⟨d0, hd0⟩ :=
        Option.ne_none_iff_exists'.mp (hhex c0 (by simp))
      simp [escapeU, readHexDigit, hd0]
    · obtain ⟨d0, hd0⟩ :=
        Option.ne_none_iff_exists'.mp (hhex c0 (by simp))
      obtain ⟨d1, hd1⟩ :=
        Option.ne_none_iff_exists'.mp (hhex c1 (by simp))
      simp [escapeU, readHexDigit, hd0, hd1]
    · obtain ⟨d0, hd0⟩ :=
        Option.ne_none_iff_exists'.mp (hhex c0 (by simp))
      obtain ⟨d1, hd1⟩ :=
        Option.ne_none_iff_exists'.mp (hhex c1 (by simp))
      obtain ⟨d2, hd2⟩ :=
        Option.ne_none_iff_exists'.mp (hhex c2 (by simp))
      simp [escapeU, readHexDigit, hd0, hd1, hd2]
    · simp only [List.length_cons] at hlen
      omega
  · intro c0 c1 c2 c3 rest d0 d1 d2 d3 hd0 hd1 hd2 hd3
    simp [escapeU, readHexDigit, hd0, hd1, hd2, hd3]
  · intro c0 rest h0
    simp [escapeU, readHexDigit, h0]
  · intro c0 c1 rest d0 hd0 h1
    simp [escapeU, readHexDigit, hd0, h1]
  · intro c0 c1 c2 rest d0 d1 hd0 hd1 h2
    simp [escapeU, readHexDigit, hd0, hd1, h2]
  · intro c0 c1 c2 c3 rest d0 d1 d2 hd0 hd1 hd2 h3
    simp [escapeU, readHexDigit, hd0, hd1, hd2, h3]

/-- Witness for C8: concrete instances of each hypothesis-bearing
conjunct, obtained by applying the theorem itself. -/
theorem claim8_unicode_escape_witness :
    escapeU ['0', '0'] = .error .unfinishedEscape
    ∧ escapeU ['0', '0', '4', '1', 'x'] = .ok ('A', ['x'])
    ∧ escapeU ['D', '8', '0', '0'] = .error .invalidCodePointValue
    ∧ escapeU ['Z'] = .error .invalidHexValue
    ∧ escapeU ['0', 'Z'] = .error .invalidHexValue
    ∧ escapeU ['0', '0', 'Z'] = .error .invalidHexValue
    ∧ escapeU ['0', '0', '4', 'Z'] = .error .invalidHexValue :=
  ⟨claim8_unicode_escape.2.1 ['0', '0'] (by decide) (by decide),
   claim8_unicode_escape.2.2.1 '0' '0' '4' '1' ['x'] 0 0 4 1
     rfl rfl rfl rfl,
   claim8_unicode_escape.2.2.1 'D' '8' '0' '0' [] 13 8 0 0
     rfl rfl rfl rfl,
   claim8_unicode_escape.2.2.2.1 'Z' [] rfl,
   claim8_unicode_escape.2.2.2.2.1 '0' 'Z' [] 0 rfl rfl,
   claim8_unicode_escape.2.2.2.2.2.1 '0' '0' 'Z' [] 0 0 rfl rfl rfl,
   claim8_unicode_escape.2.2.2.2.2.2 '0' '0' '4' 'Z' [] 0 0 4
     rfl rfl rfl rfl⟩

/-- Claim C9, counterexample to the claim as stated: the key inserted
into the object mapping is the RAW token text, not the unescaped key.
For the tokens of `{"\\": 1}` (raw key text of two backslash
characters, which unescapes to a single backslash) the result binds
the two-backslash raw text, and the unescaped key is absent from the
mapping. -/
theorem claim9_counterexample_key_not_unescaped :
    parse [Token.leftCurlyBracket, Token.string (String.mk ['\\', '\\']),
      Token.colon, Token.number 1, Token.rightCurlyBracket]
      = .ok (.object [(String.mk ['\\', '\\'], .number 1)])
    ∧ parse_string (String.mk ['\\', '\\'])
      = .ok (.string (String.mk ['\\']))
    ∧ lookupHM [(String.mk ['\\', '\\'], Value.number 1)]
        (String.mk ['\\']) = none := by
  refine ⟨by rfl, by rfl, by rfl⟩

/-- Claim C9 as amended: each accepted key/value pair is inserted into
the result mapping as (raw key token text, value) — the key is not
unescaped — and a repeated key overwrites the earlier entry, so a key
is bound to the last-written value; in particular the tokens of
`{"a":1,"a":2}` resolve `"a"` to 2. -/
theorem claim9_raw_key_last_write_wins :
    (∀ m : List (String × Value), ∀ k : String, ∀ v : Value,
      lookupHM (insertHM m k v) k = some v)
    ∧ parse [Token.leftCurlyBracket, Token.string "a", Token.colon,
        Token.number 1, Token.comma, Token.string "a", Token.colon,
        Token.number 2, Token.rightCurlyBracket]
      = .ok (.object [("a", .number 2)]) := by
  constructor
  · intro m k v
    induction m with
    | nil => simp [insertHM, lookupHM]
    | cons kv rest ih =>
      obtain ⟨k', v'⟩ := kv
      by_cases h : k' = k <;> simp [insertHM, lookupHM, h, ih]
  · rfl

/-- Claim C10: tokenizing the empty string succeeds with the empty
token sequence. -/
theorem claim10_empty_input_ok : tokenize "" = .ok [] := by
  rfl

end JsonRs
